import Mathlib

/-!
Shallow embedding of `src/setup_config.py` (jobbot's interactive configuration
wizard) and verification of its specification.

The process's line-oriented standard input/output channel is modelled by
`IOSt`: a list of pending input lines and a list of emitted output pieces.
Python's `input()` consumes one line when available and raises `EOFError`
when the stream is exhausted; this is modelled by the `Except Unit` layer
(`Except.error ()` plays the role of an uncaught `EOFError`).
-/

/-- The observable channel state: pending stdin lines and emitted output. -/
structure IOSt where
  stdin : List String
  stdout : List String
deriving DecidableEq

/-- A step of the interactive program: consumes channel state, may fail
with an uncaught end-of-input error. -/
abbrev M (α : Type) : Type := IOSt → Except Unit (α × IOSt)

/-- Sequencing of interactive steps (an error propagates). -/
def andThen {α β : Type} (x : M α) (f : α → M β) : M β := fun s =>
  match x s with
  | .error e => .error e
  | .ok (a, s') => f a s'

/-- A pure value as an interactive step. -/
def mpure {α : Type} (a : α) : M α := fun s => .ok (a, s)

/-- Embeds Python's `print`: emits one piece of output. -/
def mprint (msg : String) : M Unit := fun s => .ok ((), ⟨s.stdin, s.stdout ++ [msg]⟩)

/-- Embeds Python's `input(prompt)`: emits the prompt, then returns the next
stdin line; raises (uncaught `EOFError`) when the stream is exhausted. -/
def pyInput (prompt : String) : M String := fun s =>
  match s.stdin with
  | [] => .error ()
  | line :: rest => .ok (line, ⟨rest, s.stdout ++ [prompt]⟩)

/-- The whitespace characters removed by Python's `str.strip()` (ASCII part). -/
def pyWs (c : Char) : Bool :=
  c = ' ' || c = '\t' || c = '\n' || c = '\r' || c = '\x0b' || c = '\x0c'

/-- Character-level model of Python's `str.strip()`: drop whitespace from
both ends. -/
def pyStripChars (l : List Char) : List Char :=
  List.rdropWhile pyWs (List.dropWhile pyWs l)

/-- Embeds Python's `str.strip()`. -/
def pyStrip (s : String) : String := String.mk (pyStripChars s.data)

/-- Character-level model of Python's `str.split(",")`: split at every comma,
keeping empty segments (`"".split(",") == [""]`). -/
def splitComma : List Char → List (List Char)
  | [] => [[]]
  | c :: cs =>
    if c = ',' then [] :: splitComma cs
    else
      match splitComma cs with
      | [] => [[c]]
      | seg :: rest => (c :: seg) :: rest

/-- Embeds the list comprehension
`[item.strip() for item in raw.split(",") if item.strip()]` of `ask_list`. -/
def pySplitSegs (raw : String) : List String :=
  ((splitComma raw.data).map (fun seg => pyStrip (String.mk seg))).filter
    (fun t => t ≠ "")

/-- Embeds Python's `str.lower()` (ASCII part). -/
def pyLowerChar (c : Char) : Char :=
  if 65 ≤ c.toNat ∧ c.toNat ≤ 90 then Char.ofNat (c.toNat + 32) else c

/-- Embeds Python's `str.lower()`. -/
def pyLower (s : String) : String := String.mk (s.data.map pyLowerChar)

/-- Digit-run parser used by `pyInt`: a nonempty run of ASCII digits in which
an underscore may appear only between two digits (Python's `int()` grammar). -/
def digitsCore (acc : Nat) : List Char → Option Nat
  | [] => some acc
  | c :: cs =>
    if c.isDigit then digitsCore (acc * 10 + (c.toNat - 48)) cs
    else if c = '_' then
      match cs with
      | [] => none
      | d :: _ => if d.isDigit then digitsCore acc cs else none
    else none

/-- Parse a nonempty unsigned digit run (with Python's underscore rule). -/
def parseDigits : List Char → Option Nat
  | [] => none
  | c :: cs => if c.isDigit then digitsCore (c.toNat - 48) cs else none

/-- Embeds Python's `int(s)` on strings (ASCII digits): surrounding
whitespace is ignored, an optional single sign, then a digit run; any other
shape raises `ValueError`, modelled as `none`. No range restriction. -/
def pyInt (s : String) : Option Int :=
  match pyStripChars s.data with
  | [] => none
  | '+' :: rest => (parseDigits rest).map (fun n => (n : Int))
  | '-' :: rest => (parseDigits rest).map (fun n => -(n : Int))
  | l => (parseDigits l).map (fun n => (n : Int))

/-- The prompt string rendered by `ask` (default shown in brackets when
non-empty). -/
def askRender (prompt default : String) : String :=
  prompt ++ (if default = "" then "" else " [" ++ default ++ "]") ++ ": "

/-- Pure value computed by `ask` from the raw line read:
`val = input(...).strip(); return val or default`. -/
def askPureV (default line : String) : String :=
  if pyStrip line = "" then default else pyStrip line

/-- Embeds `ask` from `src/setup_config.py`. -/
def ask (prompt default : String) : M String :=
  andThen (pyInput (askRender prompt default)) fun raw =>
    mpure (askPureV default raw)

/-- The prompt string rendered by `ask_list` (defaults joined by `", "`). -/
def askListRender (prompt : String) (default_items : List String) : String :=
  prompt ++ " [" ++ String.intercalate ", " default_items ++ "]: "

/-- Pure value computed by `ask_list` from the raw line read. -/
def askListPureV (default_items : List String) (line : String) : List String :=
  if pyStrip line = "" then default_items else pySplitSegs (pyStrip line)

/-- Embeds `ask_list` from `src/setup_config.py`. -/
def ask_list (prompt : String) (default_items : List String) : M (List String) :=
  andThen (pyInput (askListRender prompt default_items)) fun raw =>
    mpure (askListPureV default_items raw)

/-- A YAML-serializable value: the untyped nested mapping built by
`build_config` (the external serializer consumes exactly this shape). -/
inductive Val : Type where
  | null : Val
  | bool : Bool → Val
  | int : Int → Val
  | str : String → Val
  | list : List Val → Val
  | map : List (String × Val) → Val

/-- A list of strings as a `Val`. -/
def Val.strs (l : List String) : Val := Val.list (l.map Val.str)

/-- Key lookup in a `Val.map` (first match, like a Python dict with the
distinct literal keys used here). -/
def Val.get (v : Val) (k : String) : Option Val :=
  match v with
  | .map m => (m.find? (fun p => p.1 = k)).map (fun p => p.2)
  | _ => none

/-- Lookup along a path of keys. -/
def getPath (v : Val) : List String → Option Val
  | [] => some v
  | k :: ks =>
    match v.get k with
    | some w => getPath w ks
    | none => none

/-- The `cfg` dictionary literal of `build_config`, as a function of the
eleven collected values. -/
def mkCfg (full_name email phone : String) (portfolio_links : List String)
    (excel_path screenshots_dir : String)
    (base_titles include_keywords exclude_keywords : List String)
    (posting_recency_minutes run_every_minutes : Int) : Val :=
  Val.map [
    ("user_profile", Val.map [
      ("full_name", Val.str full_name),
      ("email", Val.str email),
      ("phone", Val.str phone),
      ("resume_master_path", Val.str "data/master_resume.docx"),
      ("cover_letter_template_path", Val.str "data/cover_letter_template.docx"),
      ("portfolio_links", Val.strs portfolio_links)]),
    ("storage", Val.map [
      ("excel_path", Val.str excel_path),
      ("screenshots_dir", Val.str screenshots_dir),
      ("sheets", Val.strs ["jobs_raw", "apply_queue", "applications", "emails"])]),
    ("search", Val.map [
      ("base_titles", Val.strs base_titles),
      ("auto_expand_titles", Val.bool true),
      ("expansion_map", Val.map [
        ("python developer", Val.strs [
          "full stack python developer",
          "python backend developer",
          "django developer",
          "flask developer",
          "fastapi developer",
          "software engineer (python)"])]),
      ("include_keywords", Val.strs include_keywords),
      ("exclude_keywords", Val.strs exclude_keywords),
      ("posting_recency_minutes", Val.int posting_recency_minutes)]),
    ("scheduler", Val.map [
      ("run_every_minutes", Val.int run_every_minutes),
      ("max_apps_per_run", Val.null)]),
    ("platforms", Val.map [
      ("enabled", Val.strs ["Dice"]),
      ("per_platform", Val.map [
        ("Dice", Val.map [
          ("method", Val.str "Playwright"),
          ("filters", Val.map [
            ("date_posted", Val.str "Past 24 hours"),
            ("remote", Val.bool true),
            ("location", Val.str "United States")]),
          ("visible_browser", Val.bool true)])])]),
    ("email_outreach", Val.map [
      ("enabled", Val.bool true),
      ("smtp_provider", Val.str "gmail"),
      ("from_address", Val.str email),
      ("app_password_env", Val.str "GMAIL_APP_PASSWORD"),
      ("subject_template",
        Val.str "Experienced {role} • {top_skills} • Available Immediately"),
      ("body_template_path", Val.str "data/cold_email_template.txt"),
      ("attach_tailored_resume", Val.bool true)])]

/-- The `try: int(...) except ValueError: print(warning); fallback` pattern
of `build_config`, for one numeric field. -/
def coerceStep (warning : String) (fallback : Int) (raw : String) : M Int :=
  match pyInt raw with
  | some n => mpure n
  | none => andThen (mprint warning) fun _ => mpure fallback

/-- The value the coercion stores, as a pure function of the raw string. -/
def coercePure (fallback : Int) (raw : String) : Int :=
  (pyInt raw).getD fallback

/-- Embeds `build_config` from `src/setup_config.py`. -/
def build_config : M Val :=
  andThen (mprint "\n=== jobbot • interactive config setup ===\n") fun _ =>
  andThen (ask "Your full name" "Your Name") fun full_name =>
  andThen (ask "Your email (for outreach)" "your_email@domain.com") fun email =>
  andThen (ask "Phone (optional)" "123-456-7890") fun phone =>
  andThen (ask_list "Portfolio links (comma-separated)"
    ["https://github.com/yourhandle", "https://linkedin.com/in/yourhandle"]) fun portfolio_links =>
  andThen (ask "Excel log path" "data/applications.xlsx") fun excel_path =>
  andThen (ask "Screenshots folder" "proof/") fun screenshots_dir =>
  andThen (ask_list "Base job titles" ["python developer"]) fun base_titles =>
  andThen (ask_list "Must-have keywords" ["Python", "Django", "Flask", "AWS", "SQL"]) fun include_keywords =>
  andThen (ask_list "Exclude keywords" []) fun exclude_keywords =>
  andThen (ask "Posting recency in minutes" "60") fun recency =>
  andThen (coerceStep "  ! Not a number; using 60" 60 recency) fun posting_recency_minutes =>
  andThen (ask "Run every N minutes" "15") fun rem =>
  andThen (coerceStep "  ! Not a number; using 15" 15 rem) fun run_every_minutes =>
  mpure (mkCfg full_name email phone portfolio_links excel_path screenshots_dir
    base_titles include_keywords exclude_keywords posting_recency_minutes run_every_minutes)

/-- The fixed target path `ROOT / "config.yaml"`. The anchor directory is
resolved from the script's own location at runtime; only the fixed
`config.yaml` tail is relevant to the modelled behaviour. -/
def CFG_PATH : String := "config.yaml"

/-- The phase of `main` after the overwrite guard: build the document and
write it (the external YAML serializer and the filesystem write are modelled
by returning the built document as the new file content). -/
def mainWrite : M (Int × Option Val) :=
  andThen build_config fun cfg =>
  andThen (mprint ("\nWrote config.yaml → " ++ CFG_PATH)) fun _ =>
  mpure (0, some cfg)

/-- Embeds `main` from `src/setup_config.py`. The first argument is the
current content of the target file (`none` when it does not exist); the
result pairs the process exit status with the file content afterwards. -/
def mainRun (file : Option Val) : M (Int × Option Val) :=
  match file with
  | some old =>
      andThen (pyInput ("\nconfig.yaml already exists at " ++ CFG_PATH ++
        ". Overwrite? (y/N): ")) fun raw =>
        if pyLower (pyStrip raw) ≠ "y" then
          andThen (mprint "Keeping existing config.yaml. No changes made.") fun _ =>
            mpure (0, some old)
        else
          mainWrite
  | none => mainWrite

/-- The document produced by `build_config` on the given stdin lines
(`none` when the run dies with an end-of-input error). -/
def runCfg (stdin : List String) : Option Val :=
  match build_config ⟨stdin, []⟩ with
  | .ok (cfg, _) => some cfg
  | .error _ => none

/-- The channel state after `build_config` on the given stdin lines. -/
def runSt (stdin : List String) : IOSt :=
  match build_config ⟨stdin, []⟩ with
  | .ok (_, s) => s
  | .error _ => ⟨[], []⟩

/-- Path lookup in the document produced by `build_config` on the given
stdin lines. -/
def runPath (stdin : List String) (path : List String) : Option Val :=
  match runCfg stdin with
  | some cfg => getPath cfg path
  | none => none

/-- The head of a `dropWhile` result never satisfies the dropped predicate. -/
theorem head?_dropWhile_not (p : Char → Bool) (l : List Char) (a : Char)
    (h : (List.dropWhile p l).head? = some a) : p a = false := by
  induction l with
  | nil => simp [List.dropWhile] at h
  | cons c cs ih =>
    rw [List.dropWhile_cons] at h
    by_cases hc : p c
    · rw [if_pos hc] at h; exact ih h
    · rw [if_neg hc] at h
      simp only [List.head?_cons, Option.some.injEq] at h
      subst h; simpa using hc

/-- A nonempty `dropWhile` result has the same last element as its input. -/
theorem getLast?_dropWhile_eq (p : Char → Bool) (m : List Char) (a : Char)
    (h : (m.dropWhile p).getLast? = some a) : m.getLast? = some a := by
  obtain ⟨t, ht⟩ := List.dropWhile_suffix (l := m) p
  rw [← ht, List.getLast?_append, h]
  rfl

/-- The first character of a stripped string is not whitespace. -/
theorem stripChars_head_not (l : List Char) (a : Char)
    (h : (pyStripChars l).head? = some a) : pyWs a = false := by
  rw [pyStripChars, List.rdropWhile, List.head?_reverse] at h
  have h2 := getLast?_dropWhile_eq pyWs (List.dropWhile pyWs l).reverse a h
  rw [List.getLast?_reverse] at h2
  exact head?_dropWhile_not pyWs l a h2

/-- The last character of a stripped string is not whitespace. -/
theorem stripChars_getLast_not (l : List Char) (a : Char)
    (h : (pyStripChars l).getLast? = some a) : pyWs a = false := by
  rw [pyStripChars, List.rdropWhile, List.getLast?_reverse] at h
  exact head?_dropWhile_not pyWs (List.dropWhile pyWs l).reverse a h

/-- Characters surviving `pyStripChars` come from the input. -/
theorem mem_of_mem_stripChars {l : List Char} {c : Char}
    (h : c ∈ pyStripChars l) : c ∈ l := by
  rw [pyStripChars, List.rdropWhile] at h
  rw [List.mem_reverse] at h
  have h2 := (List.dropWhile_suffix (l := (List.dropWhile pyWs l).reverse) pyWs).subset h
  rw [List.mem_reverse] at h2
  exact (List.dropWhile_suffix (l := l) pyWs).subset h2

/-- `splitComma` always yields at least one segment. -/
theorem splitComma_ne_nil (l : List Char) : splitComma l ≠ [] := by
  induction l with
  | nil => simp [splitComma]
  | cons c cs ih =>
    rw [splitComma]
    by_cases hc : c = ','
    · simp [hc]
    · rw [if_neg hc]
      cases h : splitComma cs with
      | nil => simp
      | cons seg rest => simp

/-- Every character of every `splitComma` segment comes from the input and
is not a comma. -/
theorem mem_splitComma {l : List Char} {seg : List Char} {c : Char}
    (hseg : seg ∈ splitComma l) (hc : c ∈ seg) : c ∈ l ∧ ¬c = ',' := by
  induction l generalizing seg with
  | nil =>
    simp [splitComma] at hseg
    subst hseg
    simp at hc
  | cons d ds ih =>
    rw [splitComma] at hseg
    by_cases hd : d = ','
    · rw [if_pos hd] at hseg
      rcases List.mem_cons.mp hseg with h | h
      · subst h; simp at hc
      · obtain ⟨h1, h2⟩ := ih h hc
        exact ⟨List.mem_cons_of_mem d h1, h2⟩
    · rw [if_neg hd] at hseg
      cases hsp : splitComma ds with
      | nil => exact absurd hsp (splitComma_ne_nil ds)
      | cons seg0 rest =>
        rw [hsp] at hseg
        rcases List.mem_cons.mp hseg with h | h
        · subst h
          rcases List.mem_cons.mp hc with h2 | h2
          · subst h2; exact ⟨List.mem_cons_self c ds, hd⟩
          · obtain ⟨h3, h4⟩ := ih (by rw [hsp]; exact List.mem_cons_self seg0 rest) h2
            exact ⟨List.mem_cons_of_mem d h3, h4⟩
        · obtain ⟨h3, h4⟩ := ih (by rw [hsp]; exact List.mem_cons_of_mem seg0 h) hc
          exact ⟨List.mem_cons_of_mem d h3, h4⟩

/-- A line consisting only of commas and whitespace parses to zero items. -/
theorem pySplitSegs_all_commas_ws (s : String)
    (hall : ∀ c ∈ s.data, c = ',' ∨ pyWs c = true) : pySplitSegs s = [] := by
  rw [pySplitSegs, List.filter_eq_nil_iff]
  intro t ht
  rw [List.mem_map] at ht
  obtain ⟨seg, hseg, rfl⟩ := ht
  have hws : ∀ c ∈ seg, pyWs c = true := by
    intro c hc
    obtain ⟨hmem, hnc⟩ := mem_splitComma hseg hc
    rcases hall c hmem with h | h
    · exact absurd h hnc
    · exact h
  have h0 : pyStripChars seg = [] := by
    rw [pyStripChars, List.dropWhile_eq_nil_iff.mpr hws]
    simp
  simp [pyStrip, h0]

/-- Running `build_config` on a stdin holding at least eleven lines succeeds
and produces exactly the `mkCfg` document of the eleven prompt answers. -/
theorem build_config_run (l1 l2 l3 l4 l5 l6 l7 l8 l9 l10 l11 : String)
    (rest out : List String) :
    ∃ out' : List String,
      build_config ⟨l1::l2::l3::l4::l5::l6::l7::l8::l9::l10::l11::rest, out⟩ =
        .ok (mkCfg (askPureV "Your Name" l1) (askPureV "your_email@domain.com" l2)
          (askPureV "123-456-7890" l3)
          (askListPureV ["https://github.com/yourhandle", "https://linkedin.com/in/yourhandle"] l4)
          (askPureV "data/applications.xlsx" l5) (askPureV "proof/" l6)
          (askListPureV ["python developer"] l7)
          (askListPureV ["Python", "Django", "Flask", "AWS", "SQL"] l8)
          (askListPureV [] l9)
          (coercePure 60 (askPureV "60" l10))
          (coercePure 15 (askPureV "15" l11)), ⟨rest, out'⟩) := by
  cases h10 : pyInt (askPureV "60" l10) <;> cases h11 : pyInt (askPureV "15" l11)
  · exact ⟨out ++ ["\n=== jobbot • interactive config setup ===\n",
      askRender "Your full name" "Your Name",
      askRender "Your email (for outreach)" "your_email@domain.com",
      askRender "Phone (optional)" "123-456-7890",
      askListRender "Portfolio links (comma-separated)"
        ["https://github.com/yourhandle", "https://linkedin.com/in/yourhandle"],
      askRender "Excel log path" "data/applications.xlsx",
      askRender "Screenshots folder" "proof/",
      askListRender "Base job titles" ["python developer"],
      askListRender "Must-have keywords" ["Python", "Django", "Flask", "AWS", "SQL"],
      askListRender "Exclude keywords" [],
      askRender "Posting recency in minutes" "60", "  ! Not a number; using 60",
      askRender "Run every N minutes" "15", "  ! Not a number; using 15"],
      by simp [build_config, andThen, ask, ask_list, pyInput, mpure, mprint,
        coerceStep, coercePure, h10, h11]⟩
  · exact ⟨out ++ ["\n=== jobbot • interactive config setup ===\n",
      askRender "Your full name" "Your Name",
      askRender "Your email (for outreach)" "your_email@domain.com",
      askRender "Phone (optional)" "123-456-7890",
      askListRender "Portfolio links (comma-separated)"
        ["https://github.com/yourhandle", "https://linkedin.com/in/yourhandle"],
      askRender "Excel log path" "data/applications.xlsx",
      askRender "Screenshots folder" "proof/",
      askListRender "Base job titles" ["python developer"],
      askListRender "Must-have keywords" ["Python", "Django", "Flask", "AWS", "SQL"],
      askListRender "Exclude keywords" [],
      askRender "Posting recency in minutes" "60", "  ! Not a number; using 60",
      askRender "Run every N minutes" "15"],
      by simp [build_config, andThen, ask, ask_list, pyInput, mpure, mprint,
        coerceStep, coercePure, h10, h11]⟩
  · exact ⟨out ++ ["\n=== jobbot • interactive config setup ===\n",
      askRender "Your full name" "Your Name",
      askRender "Your email (for outreach)" "your_email@domain.com",
      askRender "Phone (optional)" "123-456-7890",
      askListRender "Portfolio links (comma-separated)"
        ["https://github.com/yourhandle", "https://linkedin.com/in/yourhandle"],
      askRender "Excel log path" "data/applications.xlsx",
      askRender "Screenshots folder" "proof/",
      askListRender "Base job titles" ["python developer"],
      askListRender "Must-have keywords" ["Python", "Django", "Flask", "AWS", "SQL"],
      askListRender "Exclude keywords" [],
      askRender "Posting recency in minutes" "60",
      askRender "Run every N minutes" "15", "  ! Not a number; using 15"],
      by simp [build_config, andThen, ask, ask_list, pyInput, mpure, mprint,
        coerceStep, coercePure, h10, h11]⟩
  · exact ⟨out ++ ["\n=== jobbot • interactive config setup ===\n",
      askRender "Your full name" "Your Name",
      askRender "Your email (for outreach)" "your_email@domain.com",
      askRender "Phone (optional)" "123-456-7890",
      askListRender "Portfolio links (comma-separated)"
        ["https://github.com/yourhandle", "https://linkedin.com/in/yourhandle"],
      askRender "Excel log path" "data/applications.xlsx",
      askRender "Screenshots folder" "proof/",
      askListRender "Base job titles" ["python developer"],
      askListRender "Must-have keywords" ["Python", "Django", "Flask", "AWS", "SQL"],
      askListRender "Exclude keywords" [],
      askRender "Posting recency in minutes" "60",
      askRender "Run every N minutes" "15"],
      by simp [build_config, andThen, ask, ask_list, pyInput, mpure, mprint,
        coerceStep, coercePure, h10, h11]⟩

/-- Any successful `build_config` run consumed exactly eleven prompt answers
and produced the `mkCfg` document of those answers. -/
theorem build_config_shape {stdin out : List String} {cfg : Val} {s' : IOSt}
    (h : build_config ⟨stdin, out⟩ = .ok (cfg, s')) :
    ∃ l1 l2 l3 l4 l5 l6 l7 l8 l9 l10 l11 rest,
      stdin = l1::l2::l3::l4::l5::l6::l7::l8::l9::l10::l11::rest ∧
      cfg = mkCfg (askPureV "Your Name" l1) (askPureV "your_email@domain.com" l2)
        (askPureV "123-456-7890" l3)
        (askListPureV ["https://github.com/yourhandle", "https://linkedin.com/in/yourhandle"] l4)
        (askPureV "data/applications.xlsx" l5) (askPureV "proof/" l6)
        (askListPureV ["python developer"] l7)
        (askListPureV ["Python", "Django", "Flask", "AWS", "SQL"] l8)
        (askListPureV [] l9)
        (coercePure 60 (askPureV "60" l10))
        (coercePure 15 (askPureV "15" l11)) := by
  rcases stdin with _ | ⟨l1, _ | ⟨l2, _ | ⟨l3, _ | ⟨l4, _ | ⟨l5, _ | ⟨l6, _ | ⟨l7, _ | ⟨l8, _ | ⟨l9, _ | ⟨l10, _ | ⟨l11, rest⟩⟩⟩⟩⟩⟩⟩⟩⟩⟩⟩
  · simp [build_config, andThen, ask, ask_list, pyInput, mpure, mprint] at h
  · simp [build_config, andThen, ask, ask_list, pyInput, mpure, mprint] at h
  · simp [build_config, andThen, ask, ask_list, pyInput, mpure, mprint] at h
  · simp [build_config, andThen, ask, ask_list, pyInput, mpure, mprint] at h
  · simp [build_config, andThen, ask, ask_list, pyInput, mpure, mprint] at h
  · simp [build_config, andThen, ask, ask_list, pyInput, mpure, mprint] at h
  · simp [build_config, andThen, ask, ask_list, pyInput, mpure, mprint] at h
  · simp [build_config, andThen, ask, ask_list, pyInput, mpure, mprint] at h
  · simp [build_config, andThen, ask, ask_list, pyInput, mpure, mprint] at h
  · simp [build_config, andThen, ask, ask_list, pyInput, mpure, mprint] at h
  · cases h10 : pyInt (askPureV "60" l10) <;>
      simp [build_config, andThen, ask, ask_list, pyInput, mpure, mprint, coerceStep, h10] at h
  · obtain ⟨out', hrun⟩ := build_config_run l1 l2 l3 l4 l5 l6 l7 l8 l9 l10 l11 rest out
    rw [hrun] at h
    simp only [Except.ok.injEq, Prod.mk.injEq] at h
    exact ⟨l1, l2, l3, l4, l5, l6, l7, l8, l9, l10, l11, rest, rfl, h.1.symm⟩

/-- C2: the single-value prompt returns the trimmed line when that is
non-empty and the default unchanged otherwise; the trimmed result carries no
leading or trailing whitespace, and an empty raw line yields exactly the
default. -/
theorem ask_trim_or_default (prompt D R : String) (rest out : List String) :
    ask prompt D ⟨R :: rest, out⟩ =
      .ok ((if pyStrip R = "" then D else pyStrip R),
        ⟨rest, out ++ [askRender prompt D]⟩) ∧
    (∀ a, (pyStrip R).data.head? = some a → pyWs a = false) ∧
    (∀ a, (pyStrip R).data.getLast? = some a → pyWs a = false) ∧
    ask prompt D ⟨"" :: rest, out⟩ = .ok (D, ⟨rest, out ++ [askRender prompt D]⟩) :=
  ⟨rfl, fun a h => stripChars_head_not R.data a h,
    fun a h => stripChars_getLast_not R.data a h, rfl⟩

/-- C2 witness. -/
theorem ask_trim_or_default_witness :
    ask "Your full name" "Your Name" ⟨["  Ada Lovelace  "], []⟩ =
      .ok ("Ada Lovelace", ⟨[], ["Your full name [Your Name]: "]⟩) :=
  ((ask_trim_or_default "Your full name" "Your Name" "  Ada Lovelace  " [] []).1).trans
    rfl

/-- C3: the list prompt returns the default list verbatim on an empty trimmed
line, and otherwise the comma-split, per-segment-trimmed, empty-discarded
segments in order, preserving duplicates (shown on the spec's example and a
duplicate-bearing input). -/
theorem ask_list_split (prompt : String) (L : List String) (R : String)
    (rest out : List String) :
    ask_list prompt L ⟨R :: rest, out⟩ =
      .ok ((if pyStrip R = "" then L else pySplitSegs (pyStrip R)),
        ⟨rest, out ++ [askListRender prompt L]⟩) ∧
    askListPureV L "  a, , b ,c" = ["a", "b", "c"] ∧
    askListPureV L "a, a ,b,a" = ["a", "a", "b", "a"] ∧
    askListPureV L "" = L :=
  ⟨rfl, rfl, rfl, rfl⟩

/-- C6: a non-blank line made only of commas and whitespace yields the empty
sequence, not the default list. -/
theorem ask_list_commas_only (prompt : String) (L : List String) (R : String)
    (rest out : List String) (hne : pyStrip R ≠ "")
    (hcw : ∀ c ∈ R.data, c = ',' ∨ pyWs c = true) :
    ask_list prompt L ⟨R :: rest, out⟩ =
      .ok ([], ⟨rest, out ++ [askListRender prompt L]⟩) := by
  have hs : ∀ c ∈ (pyStrip R).data, c = ',' ∨ pyWs c = true := by
    intro c hc
    exact hcw c (mem_of_mem_stripChars hc)
  have h1 : pySplitSegs (pyStrip R) = [] := pySplitSegs_all_commas_ws (pyStrip R) hs
  simp [ask_list, andThen, pyInput, mpure, askListPureV, if_neg hne, h1]

/-- C6 witness: with a non-empty default list, input of blanks and commas
returns the empty sequence rather than the default. -/
theorem ask_list_commas_only_witness :
    ask_list "Base job titles" ["python developer"] ⟨[" , ,"], []⟩ =
      .ok ([], ⟨[], ["Base job titles [python developer]: "]⟩) :=
  ask_list_commas_only "Base job titles" ["python developer"] " , ," [] []
    (by decide) (by decide)

/-- C5 counterexample: on end-of-input the prompt primitives raise (the
uncaught end-of-file error), rather than substituting the default and
continuing as the claim states. -/
theorem prompts_raise_at_eof :
    ask "Your full name" "Your Name" ⟨[], []⟩ = Except.error () ∧
    ask_list "Base job titles" ["python developer"] ⟨[], []⟩ = Except.error () ∧
    (Except.error () : Except Unit (String × IOSt)) ≠
      Except.ok ("Your Name", ⟨[], ["Your full name [Your Name]: "]⟩) :=
  ⟨rfl, rfl, fun h => Except.noConfusion h⟩

/-- C5 (amended): the prompt primitives never raise while a line of input is
available — an empty line substitutes the default — but at end-of-input they
raise an end-of-file error instead of treating it as an empty line. -/
theorem prompts_raise_only_at_eof (prompt D : String) (L : List String)
    (line : String) (rest out : List String) :
    ask prompt D ⟨line :: rest, out⟩ =
      .ok (askPureV D line, ⟨rest, out ++ [askRender prompt D]⟩) ∧
    ask_list prompt L ⟨line :: rest, out⟩ =
      .ok (askListPureV L line, ⟨rest, out ++ [askListRender prompt L]⟩) ∧
    ask prompt D ⟨"" :: rest, out⟩ = .ok (D, ⟨rest, out ++ [askRender prompt D]⟩) ∧
    ask prompt D ⟨[], out⟩ = Except.error () ∧
    ask_list prompt L ⟨[], out⟩ = Except.error () :=
  ⟨rfl, rfl, rfl, rfl, rfl⟩

/-- C1: a raw answer that does not parse as an integer makes the coercion
print the warning and store the fallback argument (60 for posting recency,
15 for run interval, independent of the prompt's displayed default string);
a parsing answer is stored exactly with no warning, as on input `"45"`. -/
theorem numeric_fallback_policy :
    (∀ (w : String) (fb : Int) (raw : String) (s : IOSt), pyInt raw = none →
      coerceStep w fb raw s = .ok (fb, ⟨s.stdin, s.stdout ++ [w]⟩)) ∧
    (∀ (w : String) (fb : Int) (raw : String) (n : Int) (s : IOSt),
      pyInt raw = some n → coerceStep w fb raw s = .ok (n, s)) ∧
    runPath ["", "", "", "", "", "", "", "", "", "not a number", "not a number"]
      ["search", "posting_recency_minutes"] = some (Val.int 60) ∧
    runPath ["", "", "", "", "", "", "", "", "", "not a number", "not a number"]
      ["scheduler", "run_every_minutes"] = some (Val.int 15) ∧
    (runSt ["", "", "", "", "", "", "", "", "", "not a number", "not a number"]).stdout.contains
      "  ! Not a number; using 60" = true ∧
    (runSt ["", "", "", "", "", "", "", "", "", "not a number", "not a number"]).stdout.contains
      "  ! Not a number; using 15" = true ∧
    runPath ["", "", "", "", "", "", "", "", "", "45", "45"]
      ["search", "posting_recency_minutes"] = some (Val.int 45) ∧
    (runSt ["", "", "", "", "", "", "", "", "", "45", "45"]).stdout.contains
      "  ! Not a number; using 60" = false ∧
    (runSt ["", "", "", "", "", "", "", "", "", "45", "45"]).stdout.contains
      "  ! Not a number; using 15" = false := by
  refine ⟨?_, ?_, rfl, rfl, rfl, rfl, rfl, rfl, rfl⟩
  · intro w fb raw s h
    simp [coerceStep, h, andThen, mprint, mpure]
  · intro w fb raw n s h
    simp [coerceStep, h, mpure]

/-- C1 witness. -/
theorem numeric_fallback_policy_witness :
    coerceStep "  ! Not a number; using 60" 60 "not a number" ⟨[], []⟩ =
      .ok (60, ⟨[], ["  ! Not a number; using 60"]⟩) :=
  numeric_fallback_policy.1 "  ! Not a number; using 60" 60 "not a number"
    ⟨[], []⟩ (by decide)

/-- C10: the integer coercion accepts exactly what full integer parsing
admits — signed and whitespace-padded numerals included — and stores the
parsed value with no range validation, so `"-5"` and `"0"` are stored as the
negative and zero integers rather than the fallback. -/
theorem int_coercion_no_validation :
    (∀ (raw : String) (n : Int) (fb : Int), pyInt raw = some n →
      coercePure fb raw = n) ∧
    pyInt "  -5  " = some (-5) ∧
    pyInt "+45" = some 45 ∧
    pyInt "0" = some 0 ∧
    pyInt "999999999999999999999999" = some 999999999999999999999999 ∧
    runPath ["", "", "", "", "", "", "", "", "", "-5", "0"]
      ["search", "posting_recency_minutes"] = some (Val.int (-5)) ∧
    runPath ["", "", "", "", "", "", "", "", "", "-5", "0"]
      ["scheduler", "run_every_minutes"] = some (Val.int 0) ∧
    (runSt ["", "", "", "", "", "", "", "", "", "-5", "0"]).stdout.contains
      "  ! Not a number; using 60" = false ∧
    (runSt ["", "", "", "", "", "", "", "", "", "-5", "0"]).stdout.contains
      "  ! Not a number; using 15" = false := by
  refine ⟨?_, by decide, by decide, by decide, by decide, rfl, rfl, rfl, rfl⟩
  intro raw n fb h
  simp [coercePure, h]

/-- C10 witness. -/
theorem int_coercion_no_validation_witness : coercePure 60 "-5" = -5 :=
  int_coercion_no_validation.1 "-5" (-5) 60 (by decide)

/-- C7: with every prompt answered by an empty line, the produced document
has run interval 15, posting recency 60, the four fixed sheet names and the
single enabled platform Dice; and two all-empty-input runs produce identical
documents. -/
theorem all_defaults_document :
    runPath ["", "", "", "", "", "", "", "", "", "", ""]
      ["scheduler", "run_every_minutes"] = some (Val.int 15) ∧
    runPath ["", "", "", "", "", "", "", "", "", "", ""]
      ["search", "posting_recency_minutes"] = some (Val.int 60) ∧
    runPath ["", "", "", "", "", "", "", "", "", "", ""]
      ["storage", "sheets"] =
        some (Val.strs ["jobs_raw", "apply_queue", "applications", "emails"]) ∧
    runPath ["", "", "", "", "", "", "", "", "", "", ""]
      ["platforms", "enabled"] = some (Val.strs ["Dice"]) ∧
    runCfg ["", "", "", "", "", "", "", "", "", "", ""] =
      runCfg (List.replicate 11 "") :=
  ⟨rfl, rfl, rfl, rfl, rfl⟩

/-- C8: every successfully produced document has all six top-level sections
present and non-null, its two numeric fields hold integers (never the raw
unparsable string), and `scheduler.max_apps_per_run` is null at creation. -/
theorem config_document_invariants (stdin out : List String) (cfg : Val)
    (s' : IOSt) (h : build_config ⟨stdin, out⟩ = .ok (cfg, s')) :
    (∃ v, cfg.get "user_profile" = some v ∧ v ≠ Val.null) ∧
    (∃ v, cfg.get "storage" = some v ∧ v ≠ Val.null) ∧
    (∃ v, cfg.get "search" = some v ∧ v ≠ Val.null) ∧
    (∃ v, cfg.get "scheduler" = some v ∧ v ≠ Val.null) ∧
    (∃ v, cfg.get "platforms" = some v ∧ v ≠ Val.null) ∧
    (∃ v, cfg.get "email_outreach" = some v ∧ v ≠ Val.null) ∧
    (∃ n : Int, getPath cfg ["search", "posting_recency_minutes"] =
      some (Val.int n)) ∧
    (∃ n : Int, getPath cfg ["scheduler", "run_every_minutes"] =
      some (Val.int n)) ∧
    getPath cfg ["scheduler", "max_apps_per_run"] = some Val.null := by
  obtain ⟨l1, l2, l3, l4, l5, l6, l7, l8, l9, l10, l11, rest, hst, hcfg⟩ :=
    build_config_shape h
  subst hcfg
  exact ⟨⟨_, rfl, fun hh => Val.noConfusion hh⟩,
    ⟨_, rfl, fun hh => Val.noConfusion hh⟩,
    ⟨_, rfl, fun hh => Val.noConfusion hh⟩,
    ⟨_, rfl, fun hh => Val.noConfusion hh⟩,
    ⟨_, rfl, fun hh => Val.noConfusion hh⟩,
    ⟨_, rfl, fun hh => Val.noConfusion hh⟩,
    ⟨_, rfl⟩, ⟨_, rfl⟩, rfl⟩

/-- C8 witness. -/
theorem config_document_invariants_witness :
    getPath ((runCfg ["", "", "", "", "", "", "", "", "", "", ""]).getD Val.null)
      ["scheduler", "max_apps_per_run"] = some Val.null :=
  (config_document_invariants ["", "", "", "", "", "", "", "", "", "", ""] []
    ((runCfg ["", "", "", "", "", "", "", "", "", "", ""]).getD Val.null)
    (runSt ["", "", "", "", "", "", "", "", "", "", ""])
    rfl).2.2.2.2.2.2.2.2

/-- C9: in every successfully produced document, the sender address of the
email-outreach section is exactly the email collected by the second prompt,
and coincides with the profile's email field. -/
theorem from_address_mirrors_email (l1 l2 : String) (rest out : List String)
    (cfg : Val) (s' : IOSt)
    (h : build_config ⟨l1 :: l2 :: rest, out⟩ = .ok (cfg, s')) :
    getPath cfg ["email_outreach", "from_address"] =
      some (Val.str (askPureV "your_email@domain.com" l2)) ∧
    getPath cfg ["email_outreach", "from_address"] =
      getPath cfg ["user_profile", "email"] := by
  obtain ⟨p1, p2, p3, p4, p5, p6, p7, p8, p9, p10, p11, rest', hst, hcfg⟩ :=
    build_config_shape h
  subst hcfg
  simp only [List.cons.injEq] at hst
  rw [← hst.2.1]
  exact ⟨rfl, rfl⟩

/-- C9 witness. -/
theorem from_address_mirrors_email_witness :
    getPath ((runCfg ["", "dev@example.com", "", "", "", "", "", "", "", "", ""]).getD Val.null)
      ["email_outreach", "from_address"] = some (Val.str "dev@example.com") :=
  ((from_address_mirrors_email "" "dev@example.com"
    ["", "", "", "", "", "", "", "", ""] []
    ((runCfg ["", "dev@example.com", "", "", "", "", "", "", "", "", ""]).getD Val.null)
    (runSt ["", "dev@example.com", "", "", "", "", "", "", "", "", ""])
    rfl).1).trans rfl

/-- C4: with an existing target file, any overwrite answer other than `y`
(case-insensitively, after trimming) ends the run with exit status 0, the
old file content untouched, the remaining input unconsumed and no document
built; the answer `y` runs the assembler and replaces the file with the
newly built document. -/
theorem overwrite_guard (old : Val) (line : String) (rest out : List String) :
    (pyLower (pyStrip line) ≠ "y" →
      mainRun (some old) ⟨line :: rest, out⟩ =
        .ok ((0, some old),
          ⟨rest, out ++ ["\nconfig.yaml already exists at " ++ CFG_PATH ++
              ". Overwrite? (y/N): ",
            "Keeping existing config.yaml. No changes made."]⟩)) ∧
    (pyLower (pyStrip line) = "y" → ∀ (cfg : Val) (s' : IOSt),
      build_config ⟨rest, out ++ ["\nconfig.yaml already exists at " ++
          CFG_PATH ++ ". Overwrite? (y/N): "]⟩ = .ok (cfg, s') →
      mainRun (some old) ⟨line :: rest, out⟩ =
        .ok ((0, some cfg),
          ⟨s'.stdin, s'.stdout ++ ["\nWrote config.yaml → " ++ CFG_PATH]⟩)) := by
  constructor
  · intro h
    simp [mainRun, andThen, pyInput, mprint, mpure, if_pos h]
  · intro h cfg s' hb
    simp [mainRun, andThen, pyInput, mainWrite, mprint, mpure, h, hb]

/-- C4 witness: answer `"n"` declines (file kept, exit 0), and answer `"Y"`
(case-insensitive) proceeds through the assembler. -/
theorem overwrite_guard_witness :
    mainRun (some (Val.str "old")) ⟨["n"], []⟩ =
      .ok ((0, some (Val.str "old")),
        ⟨[], ["\nconfig.yaml already exists at config.yaml. Overwrite? (y/N): ",
          "Keeping existing config.yaml. No changes made."]⟩) ∧
    pyLower (pyStrip " Y ") = "y" :=
  ⟨((overwrite_guard (Val.str "old") "n" [] []).1 (by decide)).trans rfl,
    rfl⟩
